import Mathlib

/-!
Verification of the PowerFlow ingestion / screening / scoring pipeline.

This development shallowly embeds the validation logic of the repository:

* `agents/ingest/screener.py` — `_parse_and_validate` (response validator);
* `agents/ingest/extractor.py` — `_parse_json`, `_validate_and_coerce`,
  `_coerce` and the retry-once `extract` driver;
* `agents/ingest/scraper.py` — `_extract_text` length threshold;
* `agents/score/score_agent.py` — `_validate_scores`, `score_actor`,
  `score_actors`;
* `agents/ingest/notion_writer.py` / `agents/ingest/run.py` — the
  `write_activity_log` call contract.

JSON values flowing out of `json.loads` are modelled by `JValue`.  JSON
numerals are modelled as integers: every schema in the repository demands
integer fields, and no claim involves fractional values.  Python `dict`s
are modelled as association lists normalised so that a duplicated key keeps
its first position and its last value, exactly as `json.loads` builds them.
Python exceptions are modelled by the `PyError` sum; an `Except PyError`
result stands for "returns normally or raises".
-/

set_option maxRecDepth 65536

namespace PowerFlow

/-- Model of the Python exception classes that the embedded code can raise
or catch.  `apiResponseError` stands for `notion_client.errors.APIResponseError`. -/
inductive PyError where
  | valueError (msg : String)
  | typeError (msg : String)
  | attributeError (msg : String)
  | runtimeError (msg : String)
  | apiResponseError (msg : String)
deriving Repr, DecidableEq

/-- Message carried by an exception; Python `str(exc)` for the classes above. -/
def PyError.message : PyError → String
  | .valueError m => m
  | .typeError m => m
  | .attributeError m => m
  | .runtimeError m => m
  | .apiResponseError m => m

/-- Model of a parsed JSON value (output of `json.loads`).  Numerals are
restricted to integers, which is all the embedded schemas use. -/
inductive JValue where
  | jnull
  | jbool (b : Bool)
  | jint (n : Int)
  | jstr (s : String)
  | jlist (xs : List JValue)
  | jobj (fields : List (String × JValue))
deriving Repr

/-- Insert-or-overwrite one binding, as Python dict assignment does: an
existing key keeps its position and takes the new value, a new key is
appended. -/
def upsert (acc : List (String × JValue)) (kv : String × JValue) :
    List (String × JValue) :=
  if acc.any (fun p => p.1 == kv.1) then
    acc.map (fun p => if p.1 == kv.1 then (p.1, kv.2) else p)
  else
    acc ++ [kv]

/-- Normalise an association list to Python-dict form: first occurrence of a
key keeps its position, the last occurrence supplies the value.  This is how
`json.loads` resolves duplicate keys when building a `dict`. -/
def pyItems (fields : List (String × JValue)) : List (String × JValue) :=
  fields.foldl upsert []

/-- Python `d.get(k)` on the dict built from `fields` (`None` becomes
`none`): the value of the last binding of `k`, which is the value the dict
holds after `json.loads` resolves duplicates. -/
def dGet (fields : List (String × JValue)) (k : String) : Option JValue :=
  ((fields.filter (fun p => p.1 == k)).getLast?).map (fun p => p.2)

/-- Python `d.get(k, dflt)`. -/
def dGetD (fields : List (String × JValue)) (k : String) (dflt : JValue) : JValue :=
  (dGet fields k).getD dflt

/-- Python `d[k] = v` on a dict already in normalised form. -/
def dSet (fields : List (String × JValue)) (k : String) (v : JValue) :
    List (String × JValue) :=
  if fields.any (fun p => p.1 == k) then
    fields.map (fun p => if p.1 == k then (p.1, v) else p)
  else
    fields ++ [(k, v)]

/-- Single-quote character, used by Python `repr` of strings. -/
def sq : String := String.singleton (Char.ofNat 39)

/-- Python `repr` of a JSON-derived value (`None`, `True`, list and dict
display forms, single-quoted strings; escapes inside strings are not
reproduced — no embedded theorem inspects a repr of a string containing
quotes).  This recursive worker handles the container cases. -/
def pyReprDeep : JValue → String
  | .jnull => "None"
  | .jbool true => "True"
  | .jbool false => "False"
  | .jint n => toString n
  | .jstr s => sq ++ s ++ sq
  | .jlist xs => "[" ++ String.intercalate ", " (xs.attach.map (fun x => pyReprDeep x.1)) ++ "]"
  | .jobj fs =>
      "\x7b" ++
        String.intercalate ", "
          (fs.attach.map (fun p => sq ++ p.1.1 ++ sq ++ ": " ++ pyReprDeep p.1.2)) ++
      "\x7d"
termination_by v => sizeOf v
decreasing_by
  · simp_wf
    have h := List.sizeOf_lt_of_mem x.2
    omega
  · simp_wf
    have h := List.sizeOf_lt_of_mem p.2
    have h2 : sizeOf p.1.2 < sizeOf p.1 := by
      obtain ⟨a, b⟩ := p.1
      simp
    omega

/-- Python `repr`, with the scalar cases inlined (so that they unfold
definitionally); containers defer to `pyReprDeep`. -/
def pyRepr : JValue → String
  | .jnull => "None"
  | .jbool true => "True"
  | .jbool false => "False"
  | .jint n => toString n
  | .jstr s => sq ++ s ++ sq
  | .jlist xs => pyReprDeep (.jlist xs)
  | .jobj fs => pyReprDeep (.jobj fs)

/-- Python `str` of a JSON-derived value: identity on strings, `repr`-style
display otherwise (which is what `str` gives for these types). -/
def pyStr : JValue → String
  | .jstr s => s
  | v => pyRepr v

/-- Whitespace characters stripped by Python `str.strip()` and matched by
the regex class `\s`. -/
def pyWs (c : Char) : Bool :=
  c = ' ' || c = '\t' || c = '\n' || c = '\r' || c = '\x0b' || c = '\x0c'

/-- Strip leading and trailing whitespace from a character list. -/
def trimChars (cs : List Char) : List Char :=
  ((cs.dropWhile pyWs).reverse.dropWhile pyWs).reverse

/-- Python `str.strip()`. -/
def pyStrip (s : String) : String := String.mk (trimChars s.data)

/-- Python `int("...")`: optional surrounding whitespace, optional sign, a
non-empty run of decimal digits. -/
def pyIntOfStr (s : String) : Option Int :=
  let t := trimChars s.data
  let core :=
    match t with
    | '-' :: rest => rest
    | '+' :: rest => rest
    | cs => cs
  if core.length > 0 && core.all Char.isDigit then
    let n : Nat := core.foldl (fun acc c => acc * 10 + (c.toNat - 48)) 0
    some
      (match t with
       | '-' :: _ => -(n : Int)
       | _ => (n : Int))
  else
    none

/-- Python `int(v)` on a JSON-derived value (`bool` is a subclass of `int`). -/
def pyInt : JValue → Except PyError Int
  | .jbool b => .ok (if b then 1 else 0)
  | .jint n => .ok n
  | .jstr s =>
      match pyIntOfStr s with
      | some n => .ok n
      | none => .error (.valueError ("invalid literal for int() with base 10: " ++ sq ++ s ++ sq))
  | .jnull => .error (.typeError "int() argument must be a string, a bytes-like object or a real number, not NoneType")
  | .jlist _ => .error (.typeError "int() argument must be a string, a bytes-like object or a real number, not list")
  | .jobj _ => .error (.typeError "int() argument must be a string, a bytes-like object or a real number, not dict")

/-- Python `isinstance(v, (int, float))` (note `bool` is a subclass of `int`). -/
def isNumeric : JValue → Bool
  | .jint _ => true
  | .jbool _ => true
  | _ => false

/-- Numeric value of a value for which `isNumeric` holds (`int(v)` never
fails there). -/
def numVal : JValue → Int
  | .jint n => n
  | .jbool b => if b then 1 else 0
  | _ => 0

/-- Python `for x in v`: lists yield elements, strings yield one-character
strings, dicts yield their keys; other values raise `TypeError`. -/
def pyIter : JValue → Except PyError (List JValue)
  | .jlist xs => .ok xs
  | .jstr s => .ok (s.toList.map (fun c => JValue.jstr (String.singleton c)))
  | .jobj fs => .ok ((pyItems fs).map (fun p => JValue.jstr p.1))
  | .jnull => .error (.typeError "argument of type NoneType is not iterable")
  | .jbool _ => .error (.typeError "argument of type bool is not iterable")
  | .jint _ => .error (.typeError "argument of type int is not iterable")

/-- Calling `.get` on a value: only dicts have it; the dict is taken in
normalised form.  Anything else raises `AttributeError`. -/
def asDict : JValue → Except PyError (List (String × JValue))
  | .jobj fs => .ok (pyItems fs)
  | _ => .error (.attributeError "object has no attribute get")

/-- Whether `needle` occurs as a contiguous substring of `hay`. -/
def strContains (hay needle : String) : Bool :=
  (List.range (hay.data.length + 1)).any
    (fun i => needle.data.isPrefixOf (hay.data.drop i))

/-! ### A JSON parser modelling `json.loads`

The parser covers the JSON grammar as the repository uses it: `null`,
booleans, integer numerals, strings with the standard escapes, arrays and
objects.  Fractional or exponent numerals are rejected (no schema in the
repository produces them and `JValue` models numerals as integers). -/

/-- Skip JSON whitespace. -/
def skipWs : List Char → List Char
  | c :: cs => if c = ' ' || c = '\t' || c = '\n' || c = '\r' then skipWs cs else c :: cs
  | [] => []

/-- Parse a run of decimal digits (at least one), rejecting a leading zero
followed by more digits, as JSON does. -/
def parseDigits (cs : List Char) : Option (Nat × List Char) :=
  let ds := cs.takeWhile Char.isDigit
  let rest := cs.drop ds.length
  if ds.isEmpty then none
  else if ds.length > 1 && ds.head? = some '0' then none
  else some (ds.foldl (fun acc c => acc * 10 + (c.toNat - 48)) 0, rest)

/-- Parse the hexadecimal value of one character, if any. -/
def hexVal (c : Char) : Option Nat :=
  if '0' ≤ c && c ≤ '9' then some (c.toNat - 48)
  else if 'a' ≤ c && c ≤ 'f' then some (c.toNat - 87)
  else if 'A' ≤ c && c ≤ 'F' then some (c.toNat - 55)
  else none

/-- Parse the body of a JSON string after the opening quote, handling the
standard escapes; raw control characters are rejected (strict mode). -/
def parseStringBody : List Char → Option (String × List Char)
  | [] => none
  | '"' :: rest => some ("", rest)
  | '\\' :: 'u' :: a :: b :: c :: d :: rest => do
      let ha ← hexVal a
      let hb ← hexVal b
      let hc ← hexVal c
      let hd ← hexVal d
      let code := ((ha * 16 + hb) * 16 + hc) * 16 + hd
      let (s, rest2) ← parseStringBody rest
      pure (String.singleton (Char.ofNat code) ++ s, rest2)
  | '\\' :: e :: rest => do
      let c ←
        match e with
        | '"' => some '"'
        | '\\' => some '\\'
        | '/' => some '/'
        | 'b' => some (Char.ofNat 8)
        | 'f' => some (Char.ofNat 12)
        | 'n' => some '\n'
        | 'r' => some '\r'
        | 't' => some '\t'
        | _ => none
      let (s, rest2) ← parseStringBody rest
      pure (String.singleton c ++ s, rest2)
  | ['\\'] => none
  | c :: rest =>
      if c.toNat < 32 then none
      else do
        let (s, rest2) ← parseStringBody rest
        pure (String.singleton c ++ s, rest2)

mutual

/-- Parse one JSON value; `fuel` bounds the nesting depth. -/
def parseValue (fuel : Nat) (cs : List Char) : Option (JValue × List Char) :=
  match fuel with
  | 0 => none
  | fuel + 1 =>
    match skipWs cs with
    | 'n' :: 'u' :: 'l' :: 'l' :: rest => some (.jnull, rest)
    | 't' :: 'r' :: 'u' :: 'e' :: rest => some (.jbool true, rest)
    | 'f' :: 'a' :: 'l' :: 's' :: 'e' :: rest => some (.jbool false, rest)
    | '"' :: rest => do
        let (s, rest2) ← parseStringBody rest
        pure (.jstr s, rest2)
    | '-' :: rest => do
        let (n, rest2) ← parseDigits rest
        if rest2.head? = some '.' || rest2.head? = some 'e' || rest2.head? = some 'E' then none
        else pure (.jint (-(n : Int)), rest2)
    | '[' :: rest => parseArrayItems fuel (skipWs rest) true
    | '{' :: rest => parseObjItems fuel (skipWs rest) true
    | cs' => do
        let (n, rest2) ← parseDigits cs'
        if rest2.head? = some '.' || rest2.head? = some 'e' || rest2.head? = some 'E' then none
        else pure (.jint (n : Int), rest2)

/-- Parse the items of a JSON array after the opening bracket (`first` marks
that no item has been consumed yet, so `]` may close immediately). -/
def parseArrayItems (fuel : Nat) (cs : List Char) (first : Bool) : Option (JValue × List Char) :=
  match fuel with
  | 0 => none
  | fuel + 1 =>
    match cs, first with
    | ']' :: rest, true => some (.jlist [], rest)
    | _, _ => do
      let (v, rest) ← parseValue fuel cs
      match skipWs rest with
      | ',' :: rest2 => do
          let (tail, rest3) ← parseArrayItems fuel (skipWs rest2) false
          match tail with
          | .jlist vs => pure (.jlist (v :: vs), rest3)
          | _ => none
      | ']' :: rest2 => pure (.jlist [v], rest2)
      | _ => none

/-- Parse the members of a JSON object after the opening brace. -/
def parseObjItems (fuel : Nat) (cs : List Char) (first : Bool) : Option (JValue × List Char) :=
  match fuel with
  | 0 => none
  | fuel + 1 =>
    match cs, first with
    | '\x7d' :: rest, true => some (.jobj [], rest)
    | '"' :: rest, _ => do
      let (k, rest1) ← parseStringBody rest
      match skipWs rest1 with
      | ':' :: rest2 => do
        let (v, rest3) ← parseValue fuel rest2
        match skipWs rest3 with
        | ',' :: rest4 => do
            let (tail, rest5) ← parseObjItems fuel (skipWs rest4) false
            match tail with
            | .jobj fs => pure (.jobj ((k, v) :: fs), rest5)
            | _ => none
        | '\x7d' :: rest4 => pure (.jobj [(k, v)], rest4)
        | _ => none
      | _ => none
    | _, _ => none

end

/-- Model of `json.loads`: parse one value and require only whitespace after it. -/
def jsonParse (s : String) : Option JValue :=
  match parseValue (s.length + 1) s.data with
  | some (v, rest) => if skipWs rest = [] then some v else none
  | none => none

/-! ### Markdown-fence stripping and brace-span search

Both `extractor._parse_json` and `screener._parse_and_validate` clean the
raw model text with `re.sub(r"^(backtick-fence)(json)?\s*", ...)`,
`re.sub(r"\s*(backtick-fence)$", ...)` and `.strip()`, then search for the
greedy `\x7b.*\x7d` span with `re.DOTALL`. -/

/-- Strip a leading markdown fence (three backticks, optionally `json` in
any case, then whitespace), as the anchored case-insensitive `re.sub` does. -/
def stripLeadFence (cs : List Char) : List Char :=
  if ("```".data).isPrefixOf cs then
    let t := cs.drop 3
    let t := if (t.take 4).map Char.toLower = "json".data then t.drop 4 else t
    t.dropWhile pyWs
  else cs

/-- Strip a trailing markdown fence preceded by optional whitespace. -/
def stripTrailFence (cs : List Char) : List Char :=
  if ("```".data.reverse).isPrefixOf cs.reverse then
    ((cs.reverse.drop 3).dropWhile pyWs).reverse
  else cs

/-- Clean raw model text: both fence substitutions followed by `.strip()`. -/
def cleanRaw (raw : String) : String :=
  String.mk (trimChars (stripTrailFence (stripLeadFence raw.data)))

/-- Greedy `\x7b.*\x7d` search with `re.DOTALL`: the span from the first
opening brace to the last closing brace, when the latter comes after the
former. -/
def braceSpan (s : String) : Option String :=
  let cs := s.data
  match cs.findIdx? (fun c => c = '{'), cs.reverse.findIdx? (fun c => c = '\x7d') with
  | some i, some jr =>
      let j := cs.length - 1 - jr
      if i < j then some (String.mk ((cs.drop i).take (j - i + 1))) else none
  | _, _ => none

/-- Shared fence-strip / span-search / `json.loads` pipeline.  The span
always starts with an opening brace, so a successful parse yields an
object; `noSpanMsg` is the message of the `ValueError` raised when no span
exists.  A failing `json.loads` raises `json.JSONDecodeError`, a
`ValueError` subclass (its position-detail message is not modelled). -/
def parsePipeline (noSpanMsg : String) (raw : String) :
    Except PyError (List (String × JValue)) :=
  match braceSpan (cleanRaw raw) with
  | none => .error (.valueError noSpanMsg)
  | some span =>
    match jsonParse span with
    | some (.jobj fs) => .ok (pyItems fs)
    | _ => .error (.valueError "Expecting value: malformed JSON body")

/-- Model of `extractor._parse_json` (also used verbatim by
`score_agent._parse_json`). -/
def parseJsonPy (raw : String) : Except PyError (List (String × JValue)) :=
  parsePipeline "No JSON object found in response" raw

/-- Parsing front half of `screener._parse_and_validate`: same pipeline, but
the no-span `ValueError` message embeds the raw text. -/
def parseScreenerRaw (raw : String) : Except PyError (List (String × JValue)) :=
  parsePipeline ("No JSON object found in screener response:\n" ++ raw) raw

/-! ### Screener response validation (`screener._parse_and_validate`) -/

/-- The fixed allow-list `_NOTION_DATABASES` of `screener.py`. -/
def NOTION_DATABASES : List String :=
  ["Events Timeline", "Actors Registry", "PowerFlow Assessments",
   "Conflicts Registry", "Geopolitical Units", "Scenarios & Stress Tests"]

/-- The four valid verdict labels of `screener._parse_and_validate`. -/
def validVerdicts : List String :=
  ["Strong Match", "Moderate Match", "Weak Match", "Not Relevant"]

/-- The five recognised `dimension_scores` keys (`_dim_keys`). -/
def dimKeys : List String :=
  ["sovereignty_gap_centrality", "actor_relevance", "event_actionability",
   "geographic_scope", "source_quality"]

/-- The canonical validated screening record returned by
`_parse_and_validate` (a Python dict with these keys, the last two present
only when set). -/
structure ScreenResult where
  score : Int
  verdict : String
  reasoning : String
  affected_databases : List String
  key_signals : List String
  dimension_scores : Option (List (String × Int))
  penalties : Option Int
deriving Repr, DecidableEq

/-- Verdict recomputation from the clamped score, mirroring the
`score >= 70 / >= 40 / >= 10` cascade of `_parse_and_validate`. -/
def verdictOfScore (s : Int) : String :=
  if s ≥ 70 then "Strong Match"
  else if s ≥ 40 then "Moderate Match"
  else if s ≥ 10 then "Weak Match"
  else "Not Relevant"

/-- Score extraction: `max(0, min(100, int(data.get("score", 0))))`. -/
def screenScore (fs : List (String × JValue)) : Except PyError Int := do
  let n ← pyInt (dGetD fs "score" (.jint 0))
  pure (max 0 (min 100 n))

/-- Verdict reconciliation: `data.get("verdict", "Not Relevant")`, kept when
it is one of the four labels, otherwise recomputed from the clamped score.
Membership in the Python `set` hashes the value, so an unhashable verdict
raises `TypeError`. -/
def screenVerdict (fs : List (String × JValue)) (score : Int) :
    Except PyError String :=
  match dGetD fs "verdict" (.jstr "Not Relevant") with
  | .jlist _ => .error (.typeError "unhashable type: list")
  | .jobj _ => .error (.typeError "unhashable type: dict")
  | .jstr s => .ok (if validVerdicts.contains s then s else verdictOfScore score)
  | _ => .ok (verdictOfScore score)

/-- One step of the `affected_databases` comprehension: a value survives
exactly when it equals an allow-list member, which only a string can. -/
def dbKeep : JValue → Option String
  | .jstr s => if NOTION_DATABASES.contains s then some s else none
  | _ => none

/-- The string carried by a value, when it is a string (used to state order
preservation of the allow-list filter). -/
def strOf : JValue → Option String
  | .jstr s => some s
  | _ => none

/-- The `affected_databases` comprehension: iterate the field (default `[]`)
and keep exactly the entries equal to an allow-list member. -/
def screenAffected (fs : List (String × JValue)) : Except PyError (List String) := do
  let elems ← pyIter (dGetD fs "affected_databases" (.jlist []))
  pure (elems.filterMap dbKeep)

/-- The `key_signals` handling: a list keeps its first five entries, each
coerced with `str`; any non-list becomes `[]`. -/
def screenKeySignals (fs : List (String × JValue)) : List String :=
  match dGetD fs "key_signals" (.jlist []) with
  | .jlist xs => (xs.take 5).map pyStr
  | _ => []

/-- One entry of the `dimension_scores` comprehension: recognised keys with
numeric values survive, clamped to [0, 20]; anything else is dropped. -/
def dimKeep (kv : String × JValue) : Option (String × Int) :=
  if dimKeys.contains kv.1 && isNumeric kv.2 then
    some (kv.1, max 0 (min 20 (numVal kv.2)))
  else none

/-- The `dimension_scores` handling: present only when the raw field is a
dict; keeps recognised keys with numeric values, clamping each to [0, 20];
non-numeric values are dropped. -/
def screenDims (fs : List (String × JValue)) : Option (List (String × Int)) :=
  match dGet fs "dimension_scores" with
  | some (.jobj ds) => some ((pyItems ds).filterMap dimKeep)
  | _ => none

/-- The `penalties` handling: kept as `int(penalties)` when numeric. -/
def screenPenalties (fs : List (String × JValue)) : Option Int :=
  match dGet fs "penalties" with
  | some v => if isNumeric v then some (numVal v) else none
  | none => none

/-- Validation back half of `screener._parse_and_validate`, applied to the
parsed JSON object: score clamping, verdict reconciliation, allow-list
filtering, key-signal truncation, reasoning coercion, and the two optional
fields, in source order. -/
def validateScreening (fs : List (String × JValue)) : Except PyError ScreenResult := do
  let score ← screenScore fs
  let verdict ← screenVerdict fs score
  let affected ← screenAffected fs
  let ks := screenKeySignals fs
  pure {
    score := score
    verdict := verdict
    reasoning := pyStr (dGetD fs "reasoning" (.jstr ""))
    affected_databases := affected
    key_signals := ks
    dimension_scores := screenDims fs
    penalties := screenPenalties fs
  }

/-- Whole `screener._parse_and_validate`: parse, then validate. -/
def parseAndValidate (raw : String) : Except PyError ScreenResult := do
  let fs ← parseScreenerRaw raw
  validateScreening fs

/-- JSON serialization of a validated screening record: the object a
well-behaved response carrying exactly this result would parse to.  Used to
state that validation is idempotent. -/
def ScreenResult.toJson (r : ScreenResult) : List (String × JValue) :=
  [("score", .jint r.score),
   ("verdict", .jstr r.verdict),
   ("reasoning", .jstr r.reasoning),
   ("affected_databases", .jlist (r.affected_databases.map .jstr)),
   ("key_signals", .jlist (r.key_signals.map .jstr))] ++
  (match r.dimension_scores with
   | some m => [("dimension_scores", .jobj (m.map (fun kv => (kv.1, JValue.jint kv.2))))]
   | none => []) ++
  (match r.penalties with
   | some n => [("penalties", .jint n)]
   | none => [])

/-- An already-valid screening record, as the idempotence claim describes
one: integer score in [0, 100], a valid verdict label, `affected_databases`
a subsequence of the allow-list, at most five key signals, and
`dimension_scores` (when present) a mapping of recognised keys to integers
in [0, 20]. -/
def ValidScreenResult (r : ScreenResult) : Prop :=
  0 ≤ r.score ∧ r.score ≤ 100 ∧
  r.verdict ∈ validVerdicts ∧
  List.Sublist r.affected_databases NOTION_DATABASES ∧
  r.key_signals.length ≤ 5 ∧
  ∀ m, r.dimension_scores = some m →
    (m.map Prod.fst).Nodup ∧ ∀ kv ∈ m, kv.1 ∈ dimKeys ∧ 0 ≤ kv.2 ∧ kv.2 ≤ 20

/-! ### Extraction pipeline (`extractor.py`) and its enum coercion -/

/-- `VALID_SOURCE_TYPES` from `config/settings.py`. -/
def VALID_SOURCE_TYPES : List String :=
  ["Academic", "Government", "News", "Think tank", "OSINT", "Legal document", "Other"]

/-- `VALID_RELIABILITY` from `config/settings.py`. -/
def VALID_RELIABILITY : List String := ["High", "Medium", "Low"]

/-- `VALID_EVENT_TYPES` from `config/settings.py`. -/
def VALID_EVENT_TYPES : List String :=
  ["Legal change", "Military or coercive action", "Sanctions or economic measure",
   "Institutional reform", "Alliance or treaty shift", "Information-cyber", "Other"]

/-- `VALID_PF_SIGNAL_IMPACTS` from `config/settings.py`. -/
def VALID_PF_SIGNAL_IMPACTS : List String :=
  ["Widens", "Narrows", "No clear effect", "Indirect"]

/-- `VALID_ACTOR_TYPES` from `config/settings.py`. -/
def VALID_ACTOR_TYPES : List String :=
  ["State", "Non-State", "Hybrid", "IGO", "Individual"]

/-- `extractor._coerce(value, valid_set, field_name, default="Other")`: a
member of the valid set passes through, anything else becomes the default
(with a warning on the console, not modelled).  Membership in a Python
`set` hashes the value, so an unhashable value raises `TypeError`. -/
def coerce (value : JValue) (validSet : List String) (dflt : String) :
    Except PyError String :=
  match value with
  | .jstr s => .ok (if validSet.contains s then s else dflt)
  | .jlist _ => .error (.typeError "unhashable type: list")
  | .jobj _ => .error (.typeError "unhashable type: dict")
  | _ => .ok dflt

/-- Per-actor loop body of `_validate_and_coerce`: non-dict entries are
skipped; `actor_type` is coerced with default `"Non-State"`; `iso3` is
kept only as a non-empty (after strip) string, else set to `None`. -/
def coerceActors : List JValue → Except PyError (List JValue)
  | [] => .ok []
  | .jobj fsa :: rest => do
      let ad := pyItems fsa
      let atype ← coerce (dGetD ad "actor_type" (.jstr "")) VALID_ACTOR_TYPES "Non-State"
      let ad := dSet ad "actor_type" (.jstr atype)
      let isoV :=
        match dGet ad "iso3" with
        | some (.jstr s) => if pyStrip s ≠ "" then JValue.jstr s else JValue.jnull
        | _ => JValue.jnull
      let ad := dSet ad "iso3" isoV
      let rest2 ← coerceActors rest
      pure (JValue.jobj ad :: rest2)
  | _ :: rest => coerceActors rest

/-- `extractor._validate_and_coerce` applied to the parsed top-level JSON
object: coerce the four source/event enum fields (default `"Other"`), then
process the actors list, and return a fresh three-key dict. -/
def validateAndCoerce (data : List (String × JValue)) : Except PyError JValue := do
  let source := dGetD data "source" (.jobj [])
  let event := dGetD data "event" (.jobj [])
  let actors := dGetD data "actors" (.jlist [])
  let sd ← asDict source
  let st ← coerce (dGetD sd "source_type" (.jstr "")) VALID_SOURCE_TYPES "Other"
  let sd := dSet sd "source_type" (.jstr st)
  let rel ← coerce (dGetD sd "reliability" (.jstr "")) VALID_RELIABILITY "Other"
  let sd := dSet sd "reliability" (.jstr rel)
  let ed ← asDict event
  let et ← coerce (dGetD ed "event_type" (.jstr "")) VALID_EVENT_TYPES "Other"
  let ed := dSet ed "event_type" (.jstr et)
  let pf ← coerce (dGetD ed "pf_signal" (.jstr "")) VALID_PF_SIGNAL_IMPACTS "Other"
  let ed := dSet ed "pf_signal" (.jstr pf)
  let actorElems ← pyIter actors
  let va ← coerceActors actorElems
  pure (.jobj [("source", .jobj sd), ("event", .jobj ed), ("actors", .jlist va)])

/-- `extractor._STRICT_SUFFIX`. -/
def STRICT_SUFFIX : String :=
  "\n\nCRITICAL: Return ONLY the JSON object. " ++
  "No markdown fences, no commentary, no explanation. " ++
  "The response must start with \x7b and end with \x7d."

/-- System text sent by `_call_claude`: the base system prompt, with the
strict suffix appended exactly when `strict` is set. -/
def systemText (basePrompt : String) (strict : Bool) : String :=
  basePrompt ++ (if strict then STRICT_SUFFIX else "")

/-- Trace of one `extractor.extract` run: the `strict` flags of the model
calls made, in order, and the final outcome. -/
structure ExtractTrace where
  calls : List Bool
  result : Except PyError JValue
deriving Repr

/-- `extractor.extract`, with the model's raw responses supplied by `resp`
(indexed by the `strict` flag); `_call_claude` strips the returned text.
On a first-parse failure it retries once with `strict := true`; if that
parse also fails it raises `RuntimeError` whose message interpolates `raw`,
which by then holds the retry's response. -/
def extract (resp : Bool → String) : ExtractTrace :=
  let raw1 := pyStrip (resp false)
  match parseJsonPy raw1 with
  | .ok d => ⟨[false], validateAndCoerce d⟩
  | .error _ =>
    let raw2 := pyStrip (resp true)
    match parseJsonPy raw2 with
    | .ok d => ⟨[false, true], validateAndCoerce d⟩
    | .error _ =>
        ⟨[false, true],
         .error (.runtimeError
           ("Claude returned malformed JSON on both attempts.\nRaw response:\n" ++ raw2))⟩

/-! ### Scraper text threshold (`scraper._extract_text`) and the screener
entry guard (`screener.screen`) -/

/-- Tail of `scraper._extract_text`, taking the texts of the DOM elements
found in the article container: keep fragments longer than 40 characters,
join with blank lines. -/
def articleText (frags : List String) : String :=
  String.intercalate "\n\n" (frags.filter (fun t => t.length > 40))

/-- Length check of `scraper._extract_text`: the joined text must be at
least 200 characters, else `RuntimeError`. -/
def extractArticleText (frags : List String) : Except PyError String :=
  let text := articleText frags
  if text.length < 200 then
    .error (.runtimeError
      ("Extracted text is too short (" ++ toString text.length ++
       " chars). The page may be paywalled, JS-rendered, or structured unusually."))
  else .ok text

/-- Input acceptance and truncation in `screener.screen`, between PDF text
extraction and the relevance-scoring model call: reject only empty or
whitespace-only text, then truncate to 60,000 characters.  The returned
string is what is sent to the scorer. -/
def screenAccepts (text : String) : Except PyError String :=
  if pyStrip text = "" then
    .error (.valueError "Could not extract any text from the PDF.")
  else if text.length > 60000 then
    .ok ((text.take 60000) ++ "\n\n[Document truncated for screening]")
  else .ok text

/-! ### Actor scorer (`score_agent.py`) -/

/-- One `_validate_scores` field check: the value must be present and an
`int` (Python `bool` is a subclass of `int`) within [0, 100], else
`ValueError` naming the field and the value's repr (`None` when absent). -/
def checkScoreField (fs : List (String × JValue)) (field : String) :
    Except PyError Unit :=
  match dGet fs field with
  | some (.jint n) =>
      if 0 ≤ n ∧ n ≤ 100 then .ok ()
      else .error (.valueError
        ("Invalid " ++ field ++ ": " ++ pyRepr (.jint n) ++ " — must be an integer 0–100"))
  | some (.jbool _) => .ok ()
  | some v => .error (.valueError
      ("Invalid " ++ field ++ ": " ++ pyRepr v ++ " — must be an integer 0–100"))
  | none => .error (.valueError
      ("Invalid " ++ field ++ ": " ++ "None" ++ " — must be an integer 0–100"))

/-- `score_agent._validate_scores`: hard-validate the two numeric scores,
then require a string `reasoning` field. -/
def validateScores (fs : List (String × JValue)) : Except PyError Unit := do
  checkScoreField fs "authority_score"
  checkScoreField fs "reach_score"
  match dGet fs "reasoning" with
  | some (.jstr _) => .ok ()
  | _ => .error (.valueError "Missing or invalid \x27reasoning\x27 field in Claude response")

/-- A record written back to the Actors Registry by
`_write_scores_to_notion` (the Last Scored date is not modelled). -/
structure ScoreWrite where
  pageId : String
  authority : Int
  reach : Int
  reasoning : String
deriving Repr, DecidableEq

/-- Result dict returned by `score_actor` / appended by `score_actors`. -/
structure ScoreResult where
  actor_name : String
  actor_page_id : String
  authority_score : Option Int
  reach_score : Option Int
  pf_score : Option ℚ
  reasoning : Option String
  success : Bool
  error : Option String
deriving Repr, DecidableEq

/-- Environment of one `score_actor` invocation: the actor's page id and
fetched name, the outcome of the parse-with-retry of the model response
(`RuntimeError` when both attempts were malformed), and whether the
write-back to the store is rejected by the Notion API. -/
structure ActorRun where
  pageId : String
  name : String
  parsedScores : Except PyError (List (String × JValue))
  writeFails : Bool

/-- String value of the validated `reasoning` field (validation guarantees
it is a string). -/
def reasoningVal (fs : List (String × JValue)) : String :=
  match dGet fs "reasoning" with
  | some (.jstr s) => s
  | _ => ""

/-- Integer value of a validated score field. -/
def scoreFieldVal (fs : List (String × JValue)) (field : String) : Int :=
  match dGet fs field with
  | some v => numVal v
  | none => 0

/-- `score_agent.score_actor` over an explicit store: parse (with the retry
already folded into `parsedScores`), hard-validate, write back, and only
then assemble the success record with the locally computed
`pf_score = authority*0.6 + reach*0.4` (exact rational arithmetic stands in
for Python floats; no claim inspects the value). -/
def scoreActor (store : List ScoreWrite) (e : ActorRun) :
    Except PyError (ScoreResult × List ScoreWrite) := do
  let fs ← e.parsedScores
  validateScores fs
  let auth := scoreFieldVal fs "authority_score"
  let reach := scoreFieldVal fs "reach_score"
  if e.writeFails then
    throw (.runtimeError ("Notion API error writing scores for actor " ++ e.pageId))
  else
    let pf : ℚ := (auth : ℚ) * (6 / 10) + (reach : ℚ) * (4 / 10)
    pure
      ({ actor_name := e.name
         actor_page_id := e.pageId
         authority_score := some auth
         reach_score := some reach
         pf_score := some pf
         reasoning := some (reasoningVal fs)
         success := true
         error := none },
       store ++ [⟨e.pageId, auth, reach, reasoningVal fs⟩])

/-- Failure record appended by `score_actors` when one actor raises. -/
def failResult (pageId msg : String) : ScoreResult :=
  { actor_name := pageId
    actor_page_id := pageId
    authority_score := none
    reach_score := none
    pf_score := none
    reasoning := none
    success := false
    error := some msg }

/-- `score_agent.score_actors`: iterate the entities, catching every
exception per entity, recording a failure result, and continuing with the
store untouched by the failed entity. -/
def scoreActors (store : List ScoreWrite) : List ActorRun → List ScoreResult × List ScoreWrite
  | [] => ([], store)
  | e :: rest =>
    match scoreActor store e with
    | .ok (r, store2) =>
        let (rs, store3) := scoreActors store2 rest
        (r :: rs, store3)
    | .error err =>
        let (rs, store3) := scoreActors store rest
        (failResult e.pageId err.message :: rs, store3)

/-! ### Activity-log write (`notion_writer.write_activity_log`) and its
call in `run.py` -/

/-- Parameters of `write_activity_log`, with whether each has a default. -/
def writeActivityLogParams : List (String × Bool) :=
  [("article_title", false), ("screening_score", true), ("screening_verdict", true),
   ("databases_written", true), ("actor_count", true), ("status", true), ("notes", true)]

/-- Keyword arguments used at the `write_activity_log` call in
`run.py` `main` step 9. -/
def runIngestLogKeywords : List String :=
  ["log_title", "summary", "action_type", "target_database", "target_record",
   "source_material", "confidence", "notes"]

/-- Python keyword-argument binding for a keywords-only call: an argument
whose name is not a parameter raises `TypeError` before the function body
runs; otherwise every parameter without a default must be supplied. -/
def bindKwargs (fname : String) (params : List (String × Bool))
    (kwargs : List String) : Except PyError Unit :=
  match kwargs.find? (fun k => !(params.any (fun p => p.1 == k))) with
  | some k =>
      .error (.typeError
        (fname ++ "() got an unexpected keyword argument " ++ sq ++ k ++ sq))
  | none =>
    match params.find? (fun p => !p.2 && !(kwargs.contains p.1)) with
    | some p =>
        .error (.typeError
          (fname ++ "() missing 1 required positional argument: " ++ sq ++ p.1 ++ sq))
    | none => .ok ()

/-- Body of `write_activity_log` once entered: the full-properties page
create, on `APIResponseError` the core-properties fallback create, and a
catch-all that turns any remaining exception into `None`.  The two create
outcomes are supplied as oracles.  The body never raises. -/
def writeActivityLogBody (full fallback : Except PyError (String × String)) :
    Option (String × String) :=
  match full with
  | .ok r => some r
  | .error (.apiResponseError _) =>
      match fallback with
      | .ok r => some r
      | .error _ => none
  | .error _ => none

/-- The `except RuntimeError` handler wrapped around the activity-log call
in `run.py`: it catches only `RuntimeError`. -/
def runCatchesLogError (e : PyError) : Bool :=
  match e with
  | .runtimeError _ => true
  | _ => false

/-- Step 9 of `run.py` `main`: the keyword binding of the
`write_activity_log` call, then (only if binding succeeded) the body. -/
def ingestActivityLogStep (full fallback : Except PyError (String × String)) :
    Except PyError (Option (String × String)) :=
  match bindKwargs "write_activity_log" writeActivityLogParams runIngestLogKeywords with
  | .error e => .error e
  | .ok _ => .ok (writeActivityLogBody full fallback)

/-! ### Helper lemmas about the dict model -/

theorem dGet_dSet_self (fs : List (String × JValue)) (k : String) (v : JValue) :
    dGet (dSet fs k v) k = some v := by
  unfold dGet dSet
  by_cases h : fs.any (fun p => p.1 == k) = true
  · rw [if_pos h, List.filter_map]
    have hpred : ((fun p : String × JValue => p.1 == k) ∘
        (fun p : String × JValue => if p.1 == k then (p.1, v) else p)) =
        fun p : String × JValue => p.1 == k := by
      funext p
      by_cases hp : p.1 = k <;> simp [hp]
    rw [hpred, List.getLast?_map]
    obtain ⟨x, hx, hpx⟩ := List.any_eq_true.mp h
    have hne : fs.filter (fun p => p.1 == k) ≠ [] := by
      intro hnil
      rw [List.filter_eq_nil_iff] at hnil
      exact hnil x hx hpx
    cases hlast : (fs.filter (fun p => p.1 == k)).getLast? with
    | none =>
        rw [List.getLast?_eq_none_iff] at hlast
        exact absurd hlast hne
    | some x2 =>
        have hmem := List.mem_of_mem_getLast? hlast
        have hxk : x2.1 = k := by simpa using (List.mem_filter.mp hmem).2
        simp [hxk]
  · rw [if_neg h, List.filter_append]
    have hempty : fs.filter (fun p => p.1 == k) = [] := by
      rw [List.filter_eq_nil_iff]
      intro a ha hpa
      exact h (List.any_eq_true.mpr ⟨a, ha, hpa⟩)
    simp [hempty]

theorem dGet_dSet_ne (fs : List (String × JValue)) (k k2 : String) (v : JValue)
    (hne : k2 ≠ k) : dGet (dSet fs k v) k2 = dGet fs k2 := by
  unfold dGet dSet
  by_cases h : fs.any (fun p => p.1 == k) = true
  · rw [if_pos h, List.filter_map]
    have hpred : ((fun p : String × JValue => p.1 == k2) ∘
        (fun p : String × JValue => if p.1 == k then (p.1, v) else p)) =
        fun p : String × JValue => p.1 == k2 := by
      funext p
      by_cases hp : p.1 = k <;> simp [hp]
    rw [hpred]
    have hid : (fs.filter (fun p => p.1 == k2)).map
        (fun p : String × JValue => if p.1 == k then (p.1, v) else p) =
        fs.filter (fun p => p.1 == k2) := by
      have hcong : ∀ p ∈ fs.filter (fun p : String × JValue => p.1 == k2),
          (if p.1 == k then (p.1, v) else p) = p := by
        intro p hp
        have hk2 : p.1 = k2 := by simpa using (List.mem_filter.mp hp).2
        have hkk : ¬ p.1 = k := by
          rw [hk2]
          exact hne
        simp [hkk]
      rw [List.map_congr_left hcong]
      exact List.map_id _
    rw [hid]
  · rw [if_neg h, List.filter_append]
    have hone : (List.filter (fun p => p.1 == k2) [((k : String), v)]) = [] := by
      have hb : (k == k2) = false := by
        simp only [beq_eq_false_iff_ne, ne_eq]
        exact fun hk => hne hk.symm
      simp [List.filter, hb]
    rw [hone, List.append_nil]

theorem foldl_upsert_of_disjoint (fs : List (String × JValue)) :
    ∀ acc, ((fs.map Prod.fst).Nodup) →
    (∀ p ∈ fs, ∀ q ∈ acc, p.1 ≠ q.1) →
    List.foldl upsert acc fs = acc ++ fs := by
  induction fs with
  | nil =>
      intro acc _ _
      simp
  | cons kv fs ih =>
      intro acc hnd hdisj
      have hk : (acc.any (fun p => p.1 == kv.1)) = false := by
        rw [List.any_eq_false]
        intro q hq hqe
        exact (hdisj kv (List.mem_cons_self kv fs) q hq)
          ((by simpa using hqe : q.1 = kv.1)).symm
      have hstep : upsert acc kv = acc ++ [kv] := by
        unfold upsert
        rw [if_neg (by simp [hk])]
      have hnd2 : (fs.map Prod.fst).Nodup := by
        simpa using (List.nodup_cons.mp (by simpa using hnd)).2
      have hhead : ∀ p ∈ fs, p.1 ≠ kv.1 := by
        intro p hp hpe
        have hmem : kv.1 ∈ fs.map Prod.fst := List.mem_map.mpr ⟨p, hp, hpe⟩
        exact (List.nodup_cons.mp (by simpa using hnd)).1 hmem
      have hdisj2 : ∀ p ∈ fs, ∀ q ∈ acc ++ [kv], p.1 ≠ q.1 := by
        intro p hp q hq
        rcases List.mem_append.mp hq with hql | hqr
        · exact hdisj p (List.mem_cons_of_mem kv hp) q hql
        · have : q = kv := by simpa using hqr
          rw [this]
          exact hhead p hp
      calc List.foldl upsert acc (kv :: fs)
          = List.foldl upsert (upsert acc kv) fs := by simp [List.foldl_cons]
        _ = (acc ++ [kv]) ++ fs := by rw [hstep, ih (acc ++ [kv]) hnd2 hdisj2]
        _ = acc ++ kv :: fs := by simp

theorem pyItems_eq_self (fs : List (String × JValue))
    (hnd : (fs.map Prod.fst).Nodup) : pyItems fs = fs := by
  unfold pyItems
  simpa using foldl_upsert_of_disjoint fs [] hnd (by simp)

theorem coerce_ok_mem_or_default (v : JValue) (vs : List String) (d s : String)
    (h : coerce v vs d = .ok s) : s ∈ vs ∨ s = d := by
  cases v with
  | jstr t =>
      simp only [coerce] at h
      by_cases hm : vs.contains t
      · rw [if_pos hm] at h
        cases h
        exact Or.inl (by simpa using hm)
      · rw [if_neg hm] at h
        cases h
        exact Or.inr rfl
  | jnull => exact Or.inr (by cases h; rfl)
  | jbool b => exact Or.inr (by cases h; rfl)
  | jint n => exact Or.inr (by cases h; rfl)
  | jlist xs => cases h
  | jobj fsx => cases h

theorem coerceActors_actor_type (xs : List JValue) :
    ∀ va, coerceActors xs = .ok va →
    ∀ a ∈ va, ∃ ad s, a = JValue.jobj ad ∧ dGet ad "actor_type" = some (.jstr s) ∧
      s ∈ VALID_ACTOR_TYPES := by
  induction xs with
  | nil =>
      intro va h a ha
      cases h
      cases ha
  | cons x xs ih =>
      intro va h a ha
      cases x with
      | jobj fsa =>
          rw [coerceActors] at h
          cases hc : coerce (dGetD (pyItems fsa) "actor_type" (.jstr ""))
              VALID_ACTOR_TYPES "Non-State" with
          | error e => rw [hc] at h; cases h
          | ok s =>
              rw [hc] at h
              cases hr : coerceActors xs with
              | error e => rw [hr] at h; cases h
              | ok rest =>
                  rw [hr] at h
                  injection h with hva
                  subst hva
                  rcases List.mem_cons.mp ha with hhead | htail
                  · refine ⟨_, s, hhead, ?_, ?_⟩
                    · rw [dGet_dSet_ne _ _ _ _ (by decide),
                        dGet_dSet_self]
                    · rcases coerce_ok_mem_or_default _ _ _ _ hc with hm | hd
                      · exact hm
                      · rw [hd]; decide
                  · exact ih rest hr a htail
      | jnull => exact ih va h a ha
      | jbool b => exact ih va h a ha
      | jint n => exact ih va h a ha
      | jstr t => exact ih va h a ha
      | jlist ys => exact ih va h a ha

theorem error_bind {α β : Type} (e : PyError) (f : α → Except PyError β) :
    (Except.error e >>= f) = (Except.error e : Except PyError β) := rfl

theorem ok_bind {α β : Type} (a : α) (f : α → Except PyError β) :
    (Except.ok a >>= f) = f a := rfl

theorem verdictOfScore_spec (s : Int) :
    ((verdictOfScore s = "Strong Match") ↔ 70 ≤ s) ∧
    ((verdictOfScore s = "Moderate Match") ↔ (40 ≤ s ∧ s < 70)) ∧
    ((verdictOfScore s = "Weak Match") ↔ (10 ≤ s ∧ s < 40)) ∧
    ((verdictOfScore s = "Not Relevant") ↔ s < 10) := by
  unfold verdictOfScore
  split_ifs with h1 h2 h3 <;>
    refine ⟨⟨fun hh => ?_, fun hh => ?_⟩, ⟨fun hh => ?_, fun hh => ?_⟩,
            ⟨fun hh => ?_, fun hh => ?_⟩, ⟨fun hh => ?_, fun hh => ?_⟩⟩ <;>
    first
      | rfl
      | omega
      | exact absurd hh (by decide)

/-- C1 (counterexample): an out-of-set `reliability` is coerced to the
`_coerce` default `"Other"`, which is not a member of `VALID_RELIABILITY`
(and is not the claimed default `"Medium"`), so the pipeline does output an
out-of-enum value. -/
theorem c1_counterexample :
    validateAndCoerce [("source", .jobj [("reliability", .jstr "Unknown")])] =
      .ok (.jobj
        [("source", .jobj [("reliability", .jstr "Other"), ("source_type", .jstr "Other")]),
         ("event", .jobj [("event_type", .jstr "Other"), ("pf_signal", .jstr "Other")]),
         ("actors", .jlist [])]) ∧
    "Other" ∉ VALID_RELIABILITY ∧ "Other" ≠ "Medium" :=
  ⟨by rfl, by decide, by decide⟩

/-- C1 (amended): enum coercion in `_validate_and_coerce` replaces every
out-of-set input with the call-site default — `"Other"` for `source_type`,
`reliability`, `event_type` and `pf_signal`, and `"Non-State"` for each
actor's `actor_type`.  Hence `source_type`, `event_type` and `actor_type`
always land in their valid sets, while `reliability` and `pf_signal` land
in their valid set or in the out-of-enum default `"Other"`. -/
theorem c1_enum_coercion (data : List (String × JValue)) (out : JValue)
    (h : validateAndCoerce data = .ok out) :
    ∃ sd ed acts,
      out = .jobj [("source", .jobj sd), ("event", .jobj ed), ("actors", .jlist acts)] ∧
      (∃ s, dGet sd "source_type" = some (.jstr s) ∧ s ∈ VALID_SOURCE_TYPES) ∧
      (∃ s, dGet sd "reliability" = some (.jstr s) ∧
        (s ∈ VALID_RELIABILITY ∨ s = "Other")) ∧
      (∃ s, dGet ed "event_type" = some (.jstr s) ∧ s ∈ VALID_EVENT_TYPES) ∧
      (∃ s, dGet ed "pf_signal" = some (.jstr s) ∧
        (s ∈ VALID_PF_SIGNAL_IMPACTS ∨ s = "Other")) ∧
      (∀ a ∈ acts, ∃ ad s, a = JValue.jobj ad ∧
        dGet ad "actor_type" = some (.jstr s) ∧ s ∈ VALID_ACTOR_TYPES) := by
  simp only [validateAndCoerce] at h
  cases h1 : asDict (dGetD data "source" (.jobj [])) with
  | error e => simp only [h1, error_bind] at h; cases h
  | ok sd0 =>
  simp only [h1, ok_bind] at h
  cases h2 : coerce (dGetD sd0 "source_type" (.jstr "")) VALID_SOURCE_TYPES "Other" with
  | error e => simp only [h2, error_bind] at h; cases h
  | ok st =>
  simp only [h2, ok_bind] at h
  cases h3 : coerce (dGetD (dSet sd0 "source_type" (.jstr st)) "reliability" (.jstr ""))
      VALID_RELIABILITY "Other" with
  | error e => simp only [h3, error_bind] at h; cases h
  | ok rel =>
  simp only [h3, ok_bind] at h
  cases h4 : asDict (dGetD data "event" (.jobj [])) with
  | error e => simp only [h4, error_bind] at h; cases h
  | ok ed0 =>
  simp only [h4, ok_bind] at h
  cases h5 : coerce (dGetD ed0 "event_type" (.jstr "")) VALID_EVENT_TYPES "Other" with
  | error e => simp only [h5, error_bind] at h; cases h
  | ok et =>
  simp only [h5, ok_bind] at h
  cases h6 : coerce (dGetD (dSet ed0 "event_type" (.jstr et)) "pf_signal" (.jstr ""))
      VALID_PF_SIGNAL_IMPACTS "Other" with
  | error e => simp only [h6, error_bind] at h; cases h
  | ok pf =>
  simp only [h6, ok_bind] at h
  cases h7 : pyIter (dGetD data "actors" (.jlist [])) with
  | error e => simp only [h7, error_bind] at h; cases h
  | ok actorElems =>
  simp only [h7, ok_bind] at h
  cases h8 : coerceActors actorElems with
  | error e => simp only [h8, error_bind] at h; cases h
  | ok va =>
  simp only [h8, ok_bind] at h
  injection h with hout
  refine ⟨_, _, _, hout.symm, ⟨st, ?_, ?_⟩, ⟨rel, ?_, ?_⟩, ⟨et, ?_, ?_⟩, ⟨pf, ?_, ?_⟩, ?_⟩
  · rw [dGet_dSet_ne _ _ _ _ (by decide), dGet_dSet_self]
  · rcases coerce_ok_mem_or_default _ _ _ _ h2 with hm | hd
    · exact hm
    · rw [hd]; decide
  · rw [dGet_dSet_self]
  · exact coerce_ok_mem_or_default _ _ _ _ h3
  · rw [dGet_dSet_ne _ _ _ _ (by decide), dGet_dSet_self]
  · rcases coerce_ok_mem_or_default _ _ _ _ h5 with hm | hd
    · exact hm
    · rw [hd]; decide
  · rw [dGet_dSet_self]
  · exact coerce_ok_mem_or_default _ _ _ _ h6
  · exact coerceActors_actor_type actorElems va h8

/-- C1 witness: a fully in-enum extraction passes through unchanged, with
the amended guarantees holding at this concrete input. -/
theorem c1_enum_coercion_witness :
    validateAndCoerce
      [("source", .jobj [("source_type", .jstr "News"), ("reliability", .jstr "High")]),
       ("event", .jobj [("event_type", .jstr "Legal change"), ("pf_signal", .jstr "Widens")]),
       ("actors", .jlist [.jobj [("name", .jstr "Russia"), ("actor_type", .jstr "State")]])] =
      .ok (.jobj
        [("source", .jobj [("source_type", .jstr "News"), ("reliability", .jstr "High")]),
         ("event", .jobj [("event_type", .jstr "Legal change"), ("pf_signal", .jstr "Widens")]),
         ("actors", .jlist [.jobj [("name", .jstr "Russia"), ("actor_type", .jstr "State"),
           ("iso3", .jnull)]])]) ∧
    (∃ sd ed acts,
      JValue.jobj
        [("source", .jobj [("source_type", .jstr "News"), ("reliability", .jstr "High")]),
         ("event", .jobj [("event_type", .jstr "Legal change"), ("pf_signal", .jstr "Widens")]),
         ("actors", .jlist [.jobj [("name", .jstr "Russia"), ("actor_type", .jstr "State"),
           ("iso3", .jnull)]])] =
        .jobj [("source", .jobj sd), ("event", .jobj ed), ("actors", .jlist acts)] ∧
      (∃ s, dGet sd "source_type" = some (.jstr s) ∧ s ∈ VALID_SOURCE_TYPES) ∧
      (∃ s, dGet sd "reliability" = some (.jstr s) ∧
        (s ∈ VALID_RELIABILITY ∨ s = "Other")) ∧
      (∃ s, dGet ed "event_type" = some (.jstr s) ∧ s ∈ VALID_EVENT_TYPES) ∧
      (∃ s, dGet ed "pf_signal" = some (.jstr s) ∧
        (s ∈ VALID_PF_SIGNAL_IMPACTS ∨ s = "Other")) ∧
      (∀ a ∈ acts, ∃ ad s, a = JValue.jobj ad ∧
        dGet ad "actor_type" = some (.jstr s) ∧ s ∈ VALID_ACTOR_TYPES)) :=
  ⟨by rfl,
   c1_enum_coercion
     [("source", .jobj [("source_type", .jstr "News"), ("reliability", .jstr "High")]),
      ("event", .jobj [("event_type", .jstr "Legal change"), ("pf_signal", .jstr "Widens")]),
      ("actors", .jlist [.jobj [("name", .jstr "Russia"), ("actor_type", .jstr "State")]])]
     (.jobj
       [("source", .jobj [("source_type", .jstr "News"), ("reliability", .jstr "High")]),
        ("event", .jobj [("event_type", .jstr "Legal change"), ("pf_signal", .jstr "Widens")]),
        ("actors", .jlist [.jobj [("name", .jstr "Russia"), ("actor_type", .jstr "State"),
          ("iso3", .jnull)]])])
     (by rfl)⟩

/-- C2 (counterexample): a stated verdict that is one of the four valid
labels is kept even when it contradicts the score: score 5 with stated
verdict "Strong Match" validates to verdict "Strong Match", although the
thresholds demand "Not Relevant" for scores below 10. -/
theorem c2_counterexample :
    validateScreening [("score", .jint 5), ("verdict", .jstr "Strong Match")] =
      .ok { score := 5, verdict := "Strong Match", reasoning := "",
            affected_databases := [], key_signals := [],
            dimension_scores := none, penalties := none } ∧
    verdictOfScore 5 = "Not Relevant" ∧
    ("Strong Match" : String) ≠ "Not Relevant" ∧ (5 : Int) < 10 :=
  ⟨by rfl, by rfl, by decide, by decide⟩

/-- C2 (amended): the validator recomputes the verdict from the clamped
score via the 70/40/10 thresholds exactly when the stated verdict
(defaulting to "Not Relevant" when absent) is not one of the four valid
labels; a stated valid label is kept verbatim even when it disagrees with
the score. -/
theorem c2_verdict_thresholds (fs : List (String × JValue)) (r : ScreenResult)
    (h : validateScreening fs = .ok r) :
    (∀ s : Int, ((verdictOfScore s = "Strong Match") ↔ 70 ≤ s) ∧
      ((verdictOfScore s = "Moderate Match") ↔ (40 ≤ s ∧ s < 70)) ∧
      ((verdictOfScore s = "Weak Match") ↔ (10 ≤ s ∧ s < 40)) ∧
      ((verdictOfScore s = "Not Relevant") ↔ s < 10)) ∧
    (∃ n, pyInt (dGetD fs "score" (.jint 0)) = .ok n ∧ r.score = max 0 (min 100 n)) ∧
    (∀ t, dGetD fs "verdict" (.jstr "Not Relevant") = .jstr t → t ∉ validVerdicts →
      r.verdict = verdictOfScore r.score) ∧
    ((∀ t, dGetD fs "verdict" (.jstr "Not Relevant") ≠ .jstr t) →
      r.verdict = verdictOfScore r.score) ∧
    (∀ t, dGetD fs "verdict" (.jstr "Not Relevant") = .jstr t → t ∈ validVerdicts →
      r.verdict = t) := by
  simp only [validateScreening] at h
  cases h1 : screenScore fs with
  | error e => simp only [h1, error_bind] at h; cases h
  | ok n =>
  simp only [h1, ok_bind] at h
  cases h2 : screenVerdict fs n with
  | error e => simp only [h2, error_bind] at h; cases h
  | ok v =>
  simp only [h2, ok_bind] at h
  cases h3 : screenAffected fs with
  | error e => simp only [h3, error_bind] at h; cases h
  | ok aff =>
  simp only [h3, ok_bind] at h
  injection h with hr
  subst hr
  refine ⟨verdictOfScore_spec, ?_, ?_, ?_, ?_⟩
  · unfold screenScore at h1
    cases hpi : pyInt (dGetD fs "score" (.jint 0)) with
    | error e => simp only [hpi, error_bind] at h1; cases h1
    | ok n0 =>
        simp only [hpi, ok_bind] at h1
        injection h1 with hn
        exact ⟨n0, rfl, hn.symm⟩
  · intro t hst hnot
    simp only [screenVerdict, hst] at h2
    cases hcb : validVerdicts.contains t with
    | true => exact absurd (by simpa using hcb) hnot
    | false =>
        simp only [hcb] at h2
        simp only [Bool.false_eq_true, if_false] at h2
        injection h2 with hv
        exact hv.symm
  · intro hne
    cases hd : dGetD fs "verdict" (.jstr "Not Relevant") with
    | jstr t => exact absurd hd (hne t)
    | jlist xs => simp only [screenVerdict, hd] at h2; cases h2
    | jobj f2 => simp only [screenVerdict, hd] at h2; cases h2
    | jnull =>
        simp only [screenVerdict, hd] at h2
        injection h2 with hv
        exact hv.symm
    | jbool b =>
        simp only [screenVerdict, hd] at h2
        injection h2 with hv
        exact hv.symm
    | jint m =>
        simp only [screenVerdict, hd] at h2
        injection h2 with hv
        exact hv.symm
  · intro t hst hmem
    simp only [screenVerdict, hst] at h2
    have hcb : validVerdicts.contains t = true := by simpa using hmem
    simp only [hcb, if_true] at h2
    injection h2 with hv
    exact hv.symm

/-- C2 witness: an out-of-set stated verdict with score 85 is replaced by
the threshold verdict "Strong Match". -/
theorem c2_verdict_thresholds_witness :
    validateScreening [("score", .jint 85), ("verdict", .jstr "STRONG")] =
      .ok { score := 85, verdict := "Strong Match", reasoning := "",
            affected_databases := [], key_signals := [],
            dimension_scores := none, penalties := none } ∧
    (∀ t, dGetD [(("score" : String), JValue.jint 85), ("verdict", JValue.jstr "STRONG")]
        "verdict" (.jstr "Not Relevant") = .jstr t → t ∉ validVerdicts →
      ({ score := 85, verdict := "Strong Match", reasoning := "",
         affected_databases := [], key_signals := [],
         dimension_scores := none, penalties := none } : ScreenResult).verdict =
        verdictOfScore
          ({ score := 85, verdict := "Strong Match", reasoning := "",
             affected_databases := [], key_signals := [],
             dimension_scores := none, penalties := none } : ScreenResult).score) :=
  ⟨by rfl,
   (c2_verdict_thresholds [("score", .jint 85), ("verdict", .jstr "STRONG")]
     { score := 85, verdict := "Strong Match", reasoning := "",
       affected_databases := [], key_signals := [],
       dimension_scores := none, penalties := none }
     (by rfl)).2.2.1⟩

theorem strContains_append_right (a b : String) : strContains (a ++ b) b = true := by
  unfold strContains
  rw [List.any_eq_true]
  refine ⟨a.data.length, ?_, ?_⟩
  · rw [List.mem_range]
    have : (a ++ b).data = a.data ++ b.data := by
      simp [String.data_append]
    rw [this]
    simp
    omega
  · have hdata : (a ++ b).data = a.data ++ b.data := by
      simp [String.data_append]
    rw [hdata, List.drop_left]
    simp [List.isPrefixOf_iff_prefix]

/-- C3 (counterexample): a raw text whose JSON body parses can still make
the validator raise: the parsed object assigns `score` the string "abc",
and `int("abc")` raises `ValueError` (whose message does not embed the raw
text), so the validator does not fail only on unparsable JSON bodies. -/
theorem c3_counterexample :
    parseScreenerRaw "\x7b\"score\": \"abc\"\x7d" =
      .ok [("score", .jstr "abc")] ∧
    parseAndValidate "\x7b\"score\": \"abc\"\x7d" =
      .error (.valueError ("invalid literal for int() with base 10: " ++ sq ++ "abc" ++ sq)) :=
  ⟨by rfl, by rfl⟩

/-- C3 (amended): when no brace span exists the validator raises a
`ValueError` whose message embeds the raw text; a parsed object that merely
omits all optional fields always validates to the documented defaults
(score 0, verdict "Not Relevant", empty reasoning and lists, no
dimension_scores, no penalties); but a parsed object with a
type-mismatched field can still raise, so failure is not confined to
unparsable bodies. -/
theorem c3_error_handling :
    (∀ raw, braceSpan (cleanRaw raw) = none →
      parseAndValidate raw =
        .error (.valueError ("No JSON object found in screener response:\n" ++ raw)) ∧
      strContains ("No JSON object found in screener response:\n" ++ raw) raw = true) ∧
    (∀ fs, dGet fs "score" = none → dGet fs "verdict" = none →
      dGet fs "reasoning" = none → dGet fs "affected_databases" = none →
      dGet fs "key_signals" = none → dGet fs "dimension_scores" = none →
      dGet fs "penalties" = none →
      validateScreening fs =
        .ok { score := 0, verdict := "Not Relevant", reasoning := "",
              affected_databases := [], key_signals := [],
              dimension_scores := none, penalties := none }) := by
  constructor
  · intro raw hspan
    constructor
    · unfold parseAndValidate parseScreenerRaw parsePipeline
      rw [hspan]
      rfl
    · exact strContains_append_right _ _
  · intro fs h1 h2 h3 h4 h5 h6 h7
    simp [validateScreening, screenScore, screenVerdict, screenAffected,
          screenKeySignals, screenDims, screenPenalties, dGetD, pyStr,
          h1, h2, h3, h4, h5, h6, h7, pyInt, pyIter, validVerdicts,
          ok_bind, error_bind]

/-- C3 witness: both amended branches at concrete inputs — a brace-free raw
text raises the embedding `ValueError`, and an object without the optional
fields validates to the documented defaults. -/
theorem c3_error_handling_witness :
    (parseAndValidate "no json here" =
      .error (.valueError ("No JSON object found in screener response:\n" ++ "no json here")) ∧
     strContains ("No JSON object found in screener response:\n" ++ "no json here")
       "no json here" = true) ∧
    validateScreening [("note", .jstr "x")] =
      .ok { score := 0, verdict := "Not Relevant", reasoning := "",
            affected_databases := [], key_signals := [],
            dimension_scores := none, penalties := none } :=
  ⟨c3_error_handling.1 "no json here" (by rfl),
   c3_error_handling.2 [("note", .jstr "x")] rfl rfl rfl rfl rfl rfl rfl⟩

theorem checkScoreField_error (fs : List (String × JValue)) (field : String)
    (err : PyError) (h : checkScoreField fs field = .error err) :
    ∃ m, err = .valueError m := by
  unfold checkScoreField at h
  split at h
  · split at h
    · cases h
    · injection h with h2
      exact ⟨_, h2.symm⟩
  · cases h
  · injection h with h2
    exact ⟨_, h2.symm⟩
  · injection h with h2
    exact ⟨_, h2.symm⟩

theorem validateScores_error_valueError (fs : List (String × JValue))
    (err : PyError) (h : validateScores fs = .error err) :
    ∃ m, err = .valueError m := by
  unfold validateScores at h
  cases hc1 : checkScoreField fs "authority_score" with
  | error e1 =>
      simp only [hc1, error_bind] at h
      injection h with h2
      exact h2 ▸ checkScoreField_error fs "authority_score" e1 hc1
  | ok u1 =>
  simp only [hc1, ok_bind] at h
  cases hc2 : checkScoreField fs "reach_score" with
  | error e2 =>
      simp only [hc2, error_bind] at h
      injection h with h2
      exact h2 ▸ checkScoreField_error fs "reach_score" e2 hc2
  | ok u2 =>
  simp only [hc2, ok_bind] at h
  cases hr : dGet fs "reasoning" with
  | none =>
      simp only [hr] at h
      injection h with h2
      exact ⟨_, h2.symm⟩
  | some v =>
      simp only [hr] at h
      cases v with
      | jstr t => cases h
      | jnull => injection h with h2; exact ⟨_, h2.symm⟩
      | jbool b => injection h with h2; exact ⟨_, h2.symm⟩
      | jint n => injection h with h2; exact ⟨_, h2.symm⟩
      | jlist xs => injection h with h2; exact ⟨_, h2.symm⟩
      | jobj f2 => injection h with h2; exact ⟨_, h2.symm⟩

theorem scoreActors_length (st : List ScoreWrite) (es : List ActorRun) :
    ((scoreActors st es).1).length = es.length := by
  induction es generalizing st with
  | nil => rfl
  | cons e rest ih =>
      cases hsa : scoreActor st e with
      | ok pr =>
          obtain ⟨r, st2⟩ := pr
          simp [scoreActors, hsa, ih]
      | error err =>
          simp [scoreActors, hsa, ih]

/-- C4 (confirmed): the actor scorer hard-validates the numeric scores.  A
validation failure is a `ValueError` raised before any write (so
`score_actor` returns that error and no store write exists); an
out-of-range integer such as 150 produces exactly the documented
`ValueError`; the batch `score_actors` returns one result per input entity,
records a failure entry carrying the entity id and the error string while
leaving the store unchanged, and a successful `score_actor` appends exactly
one record for that actor. -/
theorem c4_score_hard_validation :
    (∀ (st : List ScoreWrite) (e : ActorRun) (fs : List (String × JValue)) (err : PyError),
      e.parsedScores = .ok fs → validateScores fs = .error err →
      scoreActor st e = .error err ∧ ∃ m, err = .valueError m) ∧
    (∀ n : Int, ¬ (0 ≤ n ∧ n ≤ 100) → ∀ fs, dGet fs "authority_score" = some (.jint n) →
      validateScores fs = .error (.valueError
        ("Invalid authority_score: " ++ toString n ++ " — must be an integer 0–100"))) ∧
    (∀ st es, ((scoreActors st es).1).length = es.length) ∧
    (∀ st e rest err, scoreActor st e = .error err →
      scoreActors st (e :: rest) =
        (failResult e.pageId err.message :: (scoreActors st rest).1,
         (scoreActors st rest).2)) ∧
    (∀ st e r st2, scoreActor st e = .ok (r, st2) →
      ∃ w : ScoreWrite, w.pageId = e.pageId ∧ st2 = st ++ [w]) := by
  refine ⟨?_, ?_, scoreActors_length, ?_, ?_⟩
  · intro st e fs err hp hv
    constructor
    · simp only [scoreActor, hp, ok_bind, hv, error_bind]
    · exact validateScores_error_valueError fs err hv
  · intro n hn fs hget
    have hrepr : pyRepr (JValue.jint n) = toString n := by simp [pyRepr]
    have hc : checkScoreField fs "authority_score" = .error (.valueError
        ("Invalid authority_score: " ++ toString n ++ " — must be an integer 0–100")) := by
      simp only [checkScoreField, hget]
      rw [if_neg hn, hrepr]
      rfl
    unfold validateScores
    simp only [hc, error_bind]
  · intro st e rest err hsa
    rcases hrec : scoreActors st rest with ⟨rs, st3⟩
    simp [scoreActors, hsa, hrec]
  · intro st e r st2 hsa
    simp only [scoreActor] at hsa
    cases hp : e.parsedScores with
    | error pe => rw [hp] at hsa; simp only [error_bind] at hsa; cases hsa
    | ok fs =>
    rw [hp] at hsa
    simp only [ok_bind] at hsa
    cases hv : validateScores fs with
    | error ve => rw [hv] at hsa; simp only [error_bind] at hsa; cases hsa
    | ok u =>
    rw [hv] at hsa
    simp only [ok_bind] at hsa
    by_cases hw : e.writeFails
    · simp only [hw, if_true] at hsa
      cases hsa
    · simp only [hw, if_false] at hsa
      injection hsa with hpr
      refine ⟨⟨e.pageId, scoreFieldVal fs "authority_score",
        scoreFieldVal fs "reach_score", reasoningVal fs⟩, rfl, ?_⟩
      have := congrArg Prod.snd hpr
      simpa using this.symm

/-- C4 witness: authority_score 150 raises the documented `ValueError`, no
record is written, and the batch records the failure and returns one result
for the one input entity. -/
theorem c4_score_hard_validation_witness :
    validateScores [("authority_score", .jint 150), ("reach_score", .jint 55),
        ("reasoning", .jstr "strong state control")] =
      .error (.valueError "Invalid authority_score: 150 — must be an integer 0–100") ∧
    scoreActor []
        ⟨"page-1", "Pakistan",
         .ok [("authority_score", .jint 150), ("reach_score", .jint 55),
              ("reasoning", .jstr "strong state control")], false⟩ =
      .error (.valueError "Invalid authority_score: 150 — must be an integer 0–100") ∧
    ((scoreActors []
        [⟨"page-1", "Pakistan",
          .ok [("authority_score", .jint 150), ("reach_score", .jint 55),
               ("reasoning", .jstr "strong state control")], false⟩]).1).length = 1 ∧
    scoreActors []
        [⟨"page-1", "Pakistan",
          .ok [("authority_score", .jint 150), ("reach_score", .jint 55),
               ("reasoning", .jstr "strong state control")], false⟩] =
      ([failResult "page-1" "Invalid authority_score: 150 — must be an integer 0–100"], []) := by
  refine ⟨by rfl, ?_, ?_, ?_⟩
  · exact (c4_score_hard_validation.1 []
      ⟨"page-1", "Pakistan",
       .ok [("authority_score", .jint 150), ("reach_score", .jint 55),
            ("reasoning", .jstr "strong state control")], false⟩
      [("authority_score", .jint 150), ("reach_score", .jint 55),
       ("reasoning", .jstr "strong state control")]
      (.valueError "Invalid authority_score: 150 — must be an integer 0–100")
      rfl (by rfl)).1
  · exact c4_score_hard_validation.2.2.1 [] _
  · have := c4_score_hard_validation.2.2.2.1 []
      ⟨"page-1", "Pakistan",
       .ok [("authority_score", .jint 150), ("reach_score", .jint 55),
            ("reasoning", .jstr "strong state control")], false⟩
      []
      (.valueError "Invalid authority_score: 150 — must be an integer 0–100")
      (by rfl)
    simpa using this

/-- C5 (code bug): the `write_activity_log` call in `run.py` passes keyword
arguments (`log_title`, `summary`, `action_type`, ...) that are not
parameters of `write_activity_log(article_title, screening_score, ...)`, so
Python raises `TypeError` at the call site, before the function's internal
catch-all can swallow anything; the surrounding handler in `run.py` catches
only `RuntimeError`, so the ingestion run aborts — although the body
itself, once entered, swallows every failure into `None`. -/
theorem c5_activity_log_call_bug :
    bindKwargs "write_activity_log" writeActivityLogParams runIngestLogKeywords =
      .error (.typeError
        ("write_activity_log() got an unexpected keyword argument " ++
         sq ++ "log_title" ++ sq)) ∧
    runCatchesLogError (.typeError
        ("write_activity_log() got an unexpected keyword argument " ++
         sq ++ "log_title" ++ sq)) = false ∧
    ingestActivityLogStep (.ok ("page-id", "page-url")) (.ok ("page-id", "page-url")) =
      .error (.typeError
        ("write_activity_log() got an unexpected keyword argument " ++
         sq ++ "log_title" ++ sq)) ∧
    writeActivityLogBody (.error (.apiResponseError "unknown property"))
        (.error (.runtimeError "network down")) = none ∧
    writeActivityLogBody (.error (.apiResponseError "unknown property"))
        (.ok ("page-id", "page-url")) = some ("page-id", "page-url") :=
  ⟨by rfl, by rfl, by rfl, by rfl, by rfl⟩

/-- C6 (counterexample): when both attempts return malformed responses, the
`RuntimeError` message interpolates `raw`, which has been rebound to the
retry's response — the first attempt's raw response is absent from the
message. -/
theorem c6_counterexample :
    (extract (fun strict => if strict then "Second refusal, still no object."
        else "The model refused to answer.")).result =
      .error (.runtimeError
        ("Claude returned malformed JSON on both attempts.\nRaw response:\n" ++
         "Second refusal, still no object.")) ∧
    strContains
      ("Claude returned malformed JSON on both attempts.\nRaw response:\n" ++
       "Second refusal, still no object.")
      "The model refused to answer." = false ∧
    strContains
      ("Claude returned malformed JSON on both attempts.\nRaw response:\n" ++
       "Second refusal, still no object.")
      "Second refusal, still no object." = true :=
  ⟨by rfl, by rfl, by rfl⟩

/-- C6 (amended): on a malformed first response the pipeline makes exactly
one retry (two calls total, the second with the strict suffix appended to
the system instruction), and when the retry is also malformed it raises a
`RuntimeError` whose message contains the retry's raw response — only the
retry's, because the first response has been overwritten. -/
theorem c6_retry_once (resp : Bool → String)
    (h1 : ∃ e1, parseJsonPy (pyStrip (resp false)) = .error e1)
    (h2 : ∃ e2, parseJsonPy (pyStrip (resp true)) = .error e2) :
    (extract resp).calls = [false, true] ∧
    (extract resp).result = .error (.runtimeError
      ("Claude returned malformed JSON on both attempts.\nRaw response:\n" ++
       pyStrip (resp true))) ∧
    strContains
      ("Claude returned malformed JSON on both attempts.\nRaw response:\n" ++
       pyStrip (resp true)) (pyStrip (resp true)) = true ∧
    (∀ basePrompt, systemText basePrompt true = basePrompt ++ STRICT_SUFFIX ∧
      systemText basePrompt false = basePrompt) := by
  obtain ⟨e1, he1⟩ := h1
  obtain ⟨e2, he2⟩ := h2
  refine ⟨?_, ?_, strContains_append_right _ _, ?_⟩
  · simp only [extract, he1, he2]
  · simp only [extract, he1, he2]
  · intro basePrompt
    exact ⟨rfl, by simp [systemText]⟩

/-- C6 witness: the amended behaviour at a concrete pair of brace-free
responses. -/
theorem c6_retry_once_witness :
    (∃ e1, parseJsonPy (pyStrip ((fun strict : Bool =>
      if strict then "no braces again" else "no braces at all") false)) = .error e1) ∧
    (extract (fun strict : Bool =>
      if strict then "no braces again" else "no braces at all")).calls = [false, true] ∧
    (extract (fun strict : Bool =>
      if strict then "no braces again" else "no braces at all")).result =
      .error (.runtimeError
        ("Claude returned malformed JSON on both attempts.\nRaw response:\n" ++
         pyStrip ((fun strict : Bool =>
           if strict then "no braces again" else "no braces at all") true))) :=
  ⟨⟨.valueError "No JSON object found in response", by rfl⟩,
   (c6_retry_once (fun strict : Bool =>
      if strict then "no braces again" else "no braces at all")
      ⟨.valueError "No JSON object found in response", by rfl⟩
      ⟨.valueError "No JSON object found in response", by rfl⟩).1,
   (c6_retry_once (fun strict : Bool =>
      if strict then "no braces again" else "no braces at all")
      ⟨.valueError "No JSON object found in response", by rfl⟩
      ⟨.valueError "No JSON object found in response", by rfl⟩).2.1⟩

/-- C9 (counterexample): a 150-character extracted PDF text is not treated
as unusable by the screener entry guard — `screen` only rejects empty or
whitespace-only text, so this text is passed on to the relevance scorer. -/
theorem c9_counterexample :
    screenAccepts "Short update: the local council met to discuss road maintenance and one new bus schedule for the district; attendance was low and nothing was decided." =
      .ok "Short update: the local council met to discuss road maintenance and one new bus schedule for the district; attendance was low and nothing was decided." ∧
    ("Short update: the local council met to discuss road maintenance and one new bus schedule for the district; attendance was low and nothing was decided." : String).length = 150 ∧
    (150 : Nat) < 200 :=
  ⟨by rfl, by rfl, by decide⟩

/-- C9 (amended): the 200-character minimum lives in the HTML scraper —
`_extract_text` raises `RuntimeError` whenever the joined article text is
shorter than 200 characters, so the URL-ingestion path never reaches its
model call on such text; the PDF screener's own guard, by contrast, rejects
only empty or whitespace-only text and sends any other text (150-character
texts included) to the relevance scorer. -/
theorem c9_short_text_threshold :
    (∀ frags, (articleText frags).length < 200 →
      extractArticleText frags = .error (.runtimeError
        ("Extracted text is too short (" ++ toString (articleText frags).length ++
         " chars). The page may be paywalled, JS-rendered, or structured unusually."))) ∧
    (∀ text, pyStrip text = "" →
      screenAccepts text = .error (.valueError "Could not extract any text from the PDF.")) ∧
    (∀ text : String, pyStrip text ≠ "" → text.length ≤ 60000 →
      screenAccepts text = .ok text) := by
  refine ⟨?_, ?_, ?_⟩
  · intro frags hlen
    simp only [extractArticleText]
    rw [if_pos hlen]
  · intro text h
    unfold screenAccepts
    rw [if_pos h]
  · intro text h hlen
    unfold screenAccepts
    rw [if_neg h, if_neg (by omega)]

/-- C9 witness: a 127-character article body makes the scraper raise, and a
whitespace-only PDF text makes the screener raise. -/
theorem c9_short_text_threshold_witness :
    extractArticleText
      ["The committee reviewed the quarterly irrigation budget and postponed every decision to the next session pending further review."] =
      .error (.runtimeError
        ("Extracted text is too short (" ++ toString (127 : Nat) ++
         " chars). The page may be paywalled, JS-rendered, or structured unusually.")) ∧
    screenAccepts "  \n " = .error (.valueError "Could not extract any text from the PDF.") := by
  constructor
  · have h := c9_short_text_threshold.1
      ["The committee reviewed the quarterly irrigation budget and postponed every decision to the next session pending further review."]
      (by decide)
    simpa using h
  · exact c9_short_text_threshold.2.1 "  \n " (by rfl)

theorem validateScreening_ok (fs : List (String × JValue)) (r : ScreenResult)
    (h : validateScreening fs = .ok r) :
    ∃ n aff, screenScore fs = .ok n ∧ screenVerdict fs n = .ok r.verdict ∧
      screenAffected fs = .ok aff ∧
      r = ⟨n, r.verdict, pyStr (dGetD fs "reasoning" (.jstr "")), aff,
           screenKeySignals fs, screenDims fs, screenPenalties fs⟩ := by
  simp only [validateScreening] at h
  cases h1 : screenScore fs with
  | error e => simp only [h1, error_bind] at h; cases h
  | ok n =>
  simp only [h1, ok_bind] at h
  cases h2 : screenVerdict fs n with
  | error e => simp only [h2, error_bind] at h; cases h
  | ok v =>
  simp only [h2, ok_bind] at h
  cases h3 : screenAffected fs with
  | error e => simp only [h3, error_bind] at h; cases h
  | ok aff =>
  simp only [h3, ok_bind] at h
  injection h with hr
  subst hr
  exact ⟨n, aff, rfl, h2, rfl, rfl⟩

theorem filterMap_dbKeep_sublist (xs : List JValue) :
    List.Sublist (xs.filterMap dbKeep) (xs.filterMap strOf) := by
  induction xs with
  | nil => exact List.Sublist.refl []
  | cons v xs ih =>
      cases v with
      | jstr s =>
          by_cases hc : NOTION_DATABASES.contains s = true
          · have h1 : dbKeep (.jstr s) = some s := by
              show (if NOTION_DATABASES.contains s then some s else none) = some s
              rw [if_pos hc]
            rw [List.filterMap_cons, List.filterMap_cons, h1]
            exact List.Sublist.cons₂ s ih
          · have h1 : dbKeep (.jstr s) = none := by
              show (if NOTION_DATABASES.contains s then some s else none) = none
              rw [if_neg hc]
            rw [List.filterMap_cons, List.filterMap_cons, h1]
            exact List.Sublist.cons s ih
      | jnull => exact ih
      | jbool b => exact ih
      | jint n => exact ih
      | jlist ys => exact ih
      | jobj f2 => exact ih

theorem filterMap_dbKeep_map (l : List String)
    (hmem : ∀ s ∈ l, s ∈ NOTION_DATABASES) :
    ((l.map JValue.jstr).filterMap dbKeep) = l := by
  induction l with
  | nil => rfl
  | cons s l ih =>
      have hc : NOTION_DATABASES.contains s = true := by
        simpa using hmem s (List.mem_cons_self s l)
      have h1 : dbKeep (.jstr s) = some s := by
        show (if NOTION_DATABASES.contains s then some s else none) = some s
        rw [if_pos hc]
      rw [List.map_cons, List.filterMap_cons, h1,
        ih (fun t ht => hmem t (List.mem_cons_of_mem s ht))]

theorem keySignals_roundtrip (l : List String) (hlen : l.length ≤ 5) :
    ((l.map JValue.jstr).take 5).map pyStr = l := by
  rw [← List.map_take, List.take_of_length_le hlen, List.map_map]
  have : (pyStr ∘ JValue.jstr) = id := by
    funext t
    rfl
  rw [this, List.map_id]

theorem filterMap_dims_map (m : List (String × Int))
    (hbnd : ∀ kv ∈ m, kv.1 ∈ dimKeys ∧ 0 ≤ kv.2 ∧ kv.2 ≤ 20) :
    ((m.map (fun kv => (kv.1, JValue.jint kv.2))).filterMap dimKeep) = m := by
  induction m with
  | nil => rfl
  | cons kv m ih =>
      obtain ⟨hk, hlo, hhi⟩ := hbnd kv (List.mem_cons_self kv m)
      have hclamp : max 0 (min 20 (numVal (JValue.jint kv.2))) = kv.2 := by
        simp only [numVal]
        omega
      have h1 : dimKeep (kv.1, JValue.jint kv.2) = some kv := by
        have hc : (dimKeys.contains kv.1 && isNumeric (JValue.jint kv.2)) = true := by
          rw [Bool.and_eq_true]
          exact ⟨by simpa using hk, rfl⟩
        unfold dimKeep
        rw [if_pos hc, hclamp]
      rw [List.map_cons, List.filterMap_cons, h1,
        ih (fun p hp => hbnd p (List.mem_cons_of_mem kv hp))]

theorem toJson_lookups (r : ScreenResult) :
    dGet (ScreenResult.toJson r) "score" = some (.jint r.score) ∧
    dGet (ScreenResult.toJson r) "verdict" = some (.jstr r.verdict) ∧
    dGet (ScreenResult.toJson r) "reasoning" = some (.jstr r.reasoning) ∧
    dGet (ScreenResult.toJson r) "affected_databases" =
      some (.jlist (r.affected_databases.map JValue.jstr)) ∧
    dGet (ScreenResult.toJson r) "key_signals" =
      some (.jlist (r.key_signals.map JValue.jstr)) ∧
    dGet (ScreenResult.toJson r) "dimension_scores" =
      (r.dimension_scores.map (fun m =>
        JValue.jobj (m.map (fun kv => (kv.1, JValue.jint kv.2))))) ∧
    dGet (ScreenResult.toJson r) "penalties" = (r.penalties.map JValue.jint) := by
  rcases r with ⟨sc, vd, re, ad, ks, ds, pe⟩
  cases ds <;> cases pe <;> exact ⟨rfl, rfl, rfl, rfl, rfl, rfl, rfl⟩

/-- C7 (confirmed): validation is idempotent — an already-valid screening
result, serialized back to its JSON object, validates to the identical
result. -/
theorem c7_validation_idempotent (r : ScreenResult) (hv : ValidScreenResult r) :
    validateScreening (ScreenResult.toJson r) = .ok r := by
  obtain ⟨hs0, hs1, hs2, hs3, hs4, hs5⟩ := hv
  obtain ⟨hg1, hg2, hg3, hg4, hg5, hg6, hg7⟩ := toJson_lookups r
  have hscore : screenScore (ScreenResult.toJson r) = .ok r.score := by
    simp only [screenScore, dGetD, hg1, Option.getD_some, pyInt, ok_bind]
    congr 1
    omega
  have hverd : screenVerdict (ScreenResult.toJson r) r.score = .ok r.verdict := by
    simp only [screenVerdict, dGetD, hg2, Option.getD_some]
    have hc : validVerdicts.contains r.verdict = true := by simpa using hs2
    rw [if_pos hc]
  have haff : screenAffected (ScreenResult.toJson r) = .ok r.affected_databases := by
    simp only [screenAffected, dGetD, hg4, Option.getD_some, pyIter, ok_bind]
    congr 1
    exact filterMap_dbKeep_map r.affected_databases (fun s hs => hs3.subset hs)
  have hks : screenKeySignals (ScreenResult.toJson r) = r.key_signals := by
    simp only [screenKeySignals, dGetD, hg5, Option.getD_some]
    exact keySignals_roundtrip r.key_signals hs4
  have hreason : pyStr (dGetD (ScreenResult.toJson r) "reasoning" (.jstr "")) = r.reasoning := by
    simp only [dGetD, hg3, Option.getD_some, pyStr]
  have hdims : screenDims (ScreenResult.toJson r) = r.dimension_scores := by
    cases hds : r.dimension_scores with
    | none =>
        rw [hds] at hg6
        unfold screenDims
        rw [hg6]
        rfl
    | some m =>
        obtain ⟨hnd, hbnd⟩ := hs5 m hds
        rw [hds] at hg6
        unfold screenDims
        rw [hg6]
        show some ((pyItems (m.map (fun kv => (kv.1, JValue.jint kv.2)))).filterMap dimKeep) =
          some m
        rw [pyItems_eq_self]
        · rw [filterMap_dims_map m hbnd]
        · simpa [List.map_map, Function.comp] using hnd
  have hpen : screenPenalties (ScreenResult.toJson r) = r.penalties := by
    cases hpe : r.penalties with
    | none =>
        rw [hpe] at hg7
        unfold screenPenalties
        rw [hg7]
        rfl
    | some n =>
        rw [hpe] at hg7
        unfold screenPenalties
        rw [hg7]
        rfl
  simp only [validateScreening, hscore, ok_bind, hverd, haff]
  rw [hks, hreason, hdims, hpen]
  rfl

/-- C7 witness: idempotence at a concrete already-valid result with all
optional fields present. -/
theorem c7_validation_idempotent_witness :
    validateScreening (ScreenResult.toJson
      { score := 37, verdict := "Weak Match", reasoning := "gap is incidental",
        affected_databases := ["Events Timeline", "Conflicts Registry"],
        key_signals := ["strikes", "proxy funding", "border control"],
        dimension_scores := some
          [("sovereignty_gap_centrality", 12), ("actor_relevance", 10),
           ("event_actionability", 9), ("geographic_scope", 8), ("source_quality", 8)],
        penalties := some (-10) }) =
      .ok { score := 37, verdict := "Weak Match", reasoning := "gap is incidental",
            affected_databases := ["Events Timeline", "Conflicts Registry"],
            key_signals := ["strikes", "proxy funding", "border control"],
            dimension_scores := some
              [("sovereignty_gap_centrality", 12), ("actor_relevance", 10),
               ("event_actionability", 9), ("geographic_scope", 8), ("source_quality", 8)],
            penalties := some (-10) } :=
  c7_validation_idempotent _
    ⟨by decide, by decide, by decide, by decide, by decide,
     fun m hm => by cases hm; exact ⟨by decide, by decide⟩⟩

/-- C8 (confirmed): the validated `affected_databases` only holds
allow-list members, in the input's relative order (a sublist of the input's
string entries); `key_signals` has length at most five, equals the
str-coercion of the first five entries when the input field is a list, and
is empty whenever the field is not list-shaped. -/
theorem c8_list_field_bounds (fs : List (String × JValue)) (r : ScreenResult)
    (h : validateScreening fs = .ok r) :
    (∀ s ∈ r.affected_databases, s ∈ NOTION_DATABASES) ∧
    (∀ xs, pyIter (dGetD fs "affected_databases" (.jlist [])) = .ok xs →
      List.Sublist r.affected_databases (xs.filterMap strOf)) ∧
    r.key_signals.length ≤ 5 ∧
    (∀ ys, dGetD fs "key_signals" (.jlist []) = .jlist ys →
      r.key_signals = (ys.take 5).map pyStr) ∧
    ((∀ ys, dGetD fs "key_signals" (.jlist []) ≠ .jlist ys) → r.key_signals = []) := by
  obtain ⟨n, aff, hsc, hvd, haf, hr⟩ := validateScreening_ok fs r h
  have haffval : r.affected_databases = aff := by rw [hr]
  have hksval : r.key_signals = screenKeySignals fs := by rw [hr]
  simp only [screenAffected] at haf
  cases hit : pyIter (dGetD fs "affected_databases" (.jlist [])) with
  | error e => rw [hit] at haf; cases haf
  | ok xs =>
  rw [hit] at haf
  simp only [ok_bind] at haf
  injection haf with haf2
  refine ⟨?_, ?_, ?_, ?_, ?_⟩
  · intro s hs
    rw [haffval, ← haf2] at hs
    obtain ⟨v, hv, hkeep⟩ := List.mem_filterMap.mp hs
    cases v with
    | jstr t =>
        have hkeep2 : (if NOTION_DATABASES.contains t then some t else none) = some s :=
          hkeep
        by_cases hc : NOTION_DATABASES.contains t = true
        · rw [if_pos hc] at hkeep2
          injection hkeep2 with ht
          subst ht
          simpa using hc
        · rw [if_neg hc] at hkeep2
          cases hkeep2
    | jnull => cases hkeep
    | jbool b => cases hkeep
    | jint m => cases hkeep
    | jlist ys => cases hkeep
    | jobj f2 => cases hkeep
  · intro xs2 hit2
    injection hit2 with hxs
    subst hxs
    rw [haffval, ← haf2]
    exact filterMap_dbKeep_sublist xs
  · rw [hksval]
    unfold screenKeySignals
    cases hks : dGetD fs "key_signals" (.jlist []) with
    | jlist ys =>
        simp only []
        calc ((ys.take 5).map pyStr).length = (ys.take 5).length := by
              rw [List.length_map]
          _ ≤ 5 := by
              rw [List.length_take]
              omega
    | jnull => simp
    | jbool b => simp
    | jint m => simp
    | jstr t => simp
    | jobj f2 => simp
  · intro ys hys
    rw [hksval]
    unfold screenKeySignals
    rw [hys]
  · intro hne
    rw [hksval]
    unfold screenKeySignals
    cases hks : dGetD fs "key_signals" (.jlist []) with
    | jlist ys => exact absurd hks (hne ys)
    | jnull => rfl
    | jbool b => rfl
    | jint m => rfl
    | jstr t => rfl
    | jobj f2 => rfl

/-- C8 witness: bounds at a concrete input mixing unknown databases and an
overlong key-signal list. -/
theorem c8_list_field_bounds_witness :
    validateScreening
      [("affected_databases", .jlist [.jstr "Events Timeline", .jstr "Wikipedia",
         .jstr "Actors Registry"]),
       ("key_signals", .jlist [.jstr "a", .jstr "b", .jstr "c", .jstr "d",
         .jstr "e", .jstr "f", .jstr "g"])] =
      .ok { score := 0, verdict := "Not Relevant", reasoning := "",
            affected_databases := ["Events Timeline", "Actors Registry"],
            key_signals := ["a", "b", "c", "d", "e"],
            dimension_scores := none, penalties := none } ∧
    (∀ s ∈ ({ score := 0, verdict := "Not Relevant", reasoning := "",
              affected_databases := ["Events Timeline", "Actors Registry"],
              key_signals := ["a", "b", "c", "d", "e"],
              dimension_scores := none, penalties := none } : ScreenResult).affected_databases,
      s ∈ NOTION_DATABASES) ∧
    ({ score := 0, verdict := "Not Relevant", reasoning := "",
       affected_databases := ["Events Timeline", "Actors Registry"],
       key_signals := ["a", "b", "c", "d", "e"],
       dimension_scores := none, penalties := none } : ScreenResult).key_signals.length ≤ 5 :=
  ⟨by rfl,
   (c8_list_field_bounds
     [("affected_databases", .jlist [.jstr "Events Timeline", .jstr "Wikipedia",
        .jstr "Actors Registry"]),
      ("key_signals", .jlist [.jstr "a", .jstr "b", .jstr "c", .jstr "d",
        .jstr "e", .jstr "f", .jstr "g"])]
     { score := 0, verdict := "Not Relevant", reasoning := "",
       affected_databases := ["Events Timeline", "Actors Registry"],
       key_signals := ["a", "b", "c", "d", "e"],
       dimension_scores := none, penalties := none }
     (by rfl)).1,
   (c8_list_field_bounds
     [("affected_databases", .jlist [.jstr "Events Timeline", .jstr "Wikipedia",
        .jstr "Actors Registry"]),
      ("key_signals", .jlist [.jstr "a", .jstr "b", .jstr "c", .jstr "d",
        .jstr "e", .jstr "f", .jstr "g"])]
     { score := 0, verdict := "Not Relevant", reasoning := "",
       affected_databases := ["Events Timeline", "Actors Registry"],
       key_signals := ["a", "b", "c", "d", "e"],
       dimension_scores := none, penalties := none }
     (by rfl)).2.2.1⟩

/-- C10 (confirmed): whenever the validated result carries a
`dimension_scores` mapping, every key is one of the five recognised
dimension keys and every value lies in [0, 20]; entries with non-numeric
values are dropped rather than clamped, so an input naming all five keys
can validate to a mapping with fewer than five entries. -/
theorem c10_dimension_scores_invariant (fs : List (String × JValue))
    (r : ScreenResult) (m : List (String × Int))
    (h : validateScreening fs = .ok r) (hm : r.dimension_scores = some m) :
    (∀ kv ∈ m, kv.1 ∈ dimKeys ∧ 0 ≤ kv.2 ∧ kv.2 ≤ 20) ∧
    (∀ ds, dGet fs "dimension_scores" = some (.jobj ds) →
      m = (pyItems ds).filterMap dimKeep) := by
  obtain ⟨n, aff, hsc, hvd, haf, hr⟩ := validateScreening_ok fs r h
  have hdv : screenDims fs = some m := by
    rw [hr] at hm
    exact hm
  constructor
  · intro kv hkv
    unfold screenDims at hdv
    cases hds : dGet fs "dimension_scores" with
    | none => rw [hds] at hdv; cases hdv
    | some v =>
        rw [hds] at hdv
        cases v with
        | jobj ds =>
            simp only [Option.some.injEq] at hdv
            rw [← hdv] at hkv
            obtain ⟨p, hp, hkeep⟩ := List.mem_filterMap.mp hkv
            unfold dimKeep at hkeep
            by_cases hc : (dimKeys.contains p.1 && isNumeric p.2) = true
            · rw [if_pos hc] at hkeep
              injection hkeep with hkv2
              subst hkv2
              rw [Bool.and_eq_true] at hc
              refine ⟨by simpa using hc.1, by omega, by omega⟩
            · rw [if_neg hc] at hkeep
              cases hkeep
        | jnull => cases hdv
        | jbool b => cases hdv
        | jint k => cases hdv
        | jstr t => cases hdv
        | jlist ys => cases hdv
  · intro ds hds
    unfold screenDims at hdv
    rw [hds] at hdv
    simp only [Option.some.injEq] at hdv
    exact hdv.symm

/-- C10 witness: an input naming all five dimension keys, one with a
non-numeric value and one out of range, validates to a four-entry clamped
mapping. -/
theorem c10_dimension_scores_invariant_witness :
    validateScreening
      [("dimension_scores", .jobj
        [("sovereignty_gap_centrality", .jint 18), ("actor_relevance", .jint 15),
         ("event_actionability", .jstr "high"), ("geographic_scope", .jint 25),
         ("source_quality", .jint 12)])] =
      .ok { score := 0, verdict := "Not Relevant", reasoning := "",
            affected_databases := [], key_signals := [],
            dimension_scores := some
              [("sovereignty_gap_centrality", 18), ("actor_relevance", 15),
               ("geographic_scope", 20), ("source_quality", 12)],
            penalties := none } ∧
    (∀ kv ∈ ([("sovereignty_gap_centrality", (18 : Int)), ("actor_relevance", 15),
         ("geographic_scope", 20), ("source_quality", 12)] : List (String × Int)),
      kv.1 ∈ dimKeys ∧ 0 ≤ kv.2 ∧ kv.2 ≤ 20) ∧
    ([("sovereignty_gap_centrality", (18 : Int)), ("actor_relevance", 15),
      ("geographic_scope", 20), ("source_quality", 12)] : List (String × Int)).length < 5 :=
  ⟨by rfl,
   (c10_dimension_scores_invariant
     [("dimension_scores", .jobj
       [("sovereignty_gap_centrality", .jint 18), ("actor_relevance", .jint 15),
        ("event_actionability", .jstr "high"), ("geographic_scope", .jint 25),
        ("source_quality", .jint 12)])]
     { score := 0, verdict := "Not Relevant", reasoning := "",
       affected_databases := [], key_signals := [],
       dimension_scores := some
         [("sovereignty_gap_centrality", 18), ("actor_relevance", 15),
          ("geographic_scope", 20), ("source_quality", 12)],
       penalties := none }
     [("sovereignty_gap_centrality", 18), ("actor_relevance", 15),
      ("geographic_scope", 20), ("source_quality", 12)]
     (by rfl) (by rfl)).1,
   by decide⟩

end PowerFlow
